import Mathlib

/-!
# Shallow embedding of `src/market_analyzer.py`

This file embeds the data-source aggregation pipeline of `MarketAnalyzer`
(`fetch_data`, `analyze_trends`, `_calculate_trend`) and proves or refutes
the specification claims about it.

Modelling conventions:
* Python numbers (`float`) are modelled by `ℚ`; every concrete value used in
  the claims is exactly representable, and all divisions involved are exact.
* Python exceptions are modelled by the `PyError` type together with
  `Except PyError`.  Only the error kinds the code can actually raise or
  inspect are distinguished.
* Python `dict`s are modelled as association lists in insertion order
  (Python 3.7+ dicts preserve insertion order); `dict.values()` is the list of
  second components, and item assignment updates in place or appends.
* JSON-decoded payloads (`response.json()`) are modelled by the inductive
  `PyVal` (strings, numbers, dicts, lists).
* `float(s)` on a string is modelled by `parseFloat`, covering plain decimal
  literals (optional sign, digits, optional fractional part, surrounding
  whitespace); every other string is a `ValueError`, matching Python on all
  inputs exercised here.
* Network effects are hidden behind oracles: `analyzeTrends` takes the
  per-source terminal behaviour of `fetch_data` as a function
  `String → Except PyError PyVal`, and the retry loop of `fetch_data` is
  studied separately via a per-attempt outcome trace (`fetchRun`).
-/

/-- The three strings `_calculate_trend` can return:
`'upward'`, `'downward'`, `'neutral'`. -/
inductive Trend where
  | upward
  | downward
  | neutral
deriving DecidableEq, Repr

/-- The Python exception kinds relevant to `market_analyzer.py`.
`requestExn` covers every `requests.exceptions.RequestException`
(the only class the retry loop catches); its field records how the
attempt failed (timeout, HTTP 4xx, HTTP 5xx, connection error). -/
inductive ReqKind where
  | timeout
  | http4xx
  | http5xx
  | connError
deriving DecidableEq, Repr

/-- Python exceptions the embedded code can raise or catch. -/
inductive PyError where
  | keyError
  | indexError
  | valueError
  | typeError
  | attributeError
  | unboundLocalError
  | requestExn (k : ReqKind)
deriving DecidableEq, Repr

/-- The class test `except requests.exceptions.RequestException` in
`fetch_data` (line 66): true exactly for `requestExn` errors. -/
def PyError.isRequestException : PyError → Bool
  | .requestExn _ => true
  | _ => false

/-- A JSON-decoded Python value, as returned by `response.json()`. -/
inductive PyVal where
  | str (s : String)
  | num (q : ℚ)
  | dict (entries : List (String × PyVal))
  | list (items : List PyVal)

namespace PyVal

/-- Python `d[k]` on a decoded value: dict lookup (`KeyError` when the key is
absent), `TypeError` when the value is not a dict (string/number/list
subscripted with a string key). -/
def getItem : PyVal → String → Except PyError PyVal
  | .dict entries, k =>
      match entries.find? (fun kv => kv.1 == k) with
      | some kv => .ok kv.2
      | none => .error .keyError
  | _, _ => .error .typeError

/-- Python `d.values()`: the dict's values in insertion order;
`AttributeError` on a non-dict. -/
def pyValues : PyVal → Except PyError (List PyVal)
  | .dict entries => .ok (entries.map Prod.snd)
  | _ => .error .attributeError

/-- Python `d.get(k, default)`: total on dicts, `AttributeError` otherwise. -/
def pyGet : PyVal → String → PyVal → Except PyError PyVal
  | .dict entries, k, dflt =>
      match entries.find? (fun kv => kv.1 == k) with
      | some kv => .ok kv.2
      | none => .ok dflt
  | _, _, _ => .error .attributeError

/-- Python iteration `for x in v` as used on the `articles` value: the items
of a list; other shapes are modelled as a `TypeError` (the code never reaches
them on well-typed payloads, and any error is absorbed by the same blanket
handler). -/
def asItems : PyVal → Except PyError (List PyVal)
  | .list items => .ok items
  | _ => .error .typeError

end PyVal

/-- Digit characters to the natural number they denote
(helper for `parseFloat`). -/
def digitsVal (cs : List Char) : ℕ :=
  cs.foldl (fun n c => n * 10 + (c.toNat - 48)) 0

/-- Whitespace stripping as done by Python `float` on its string argument. -/
def stripSpaces (cs : List Char) : List Char :=
  ((cs.dropWhile Char.isWhitespace).reverse.dropWhile Char.isWhitespace).reverse

/-- Python `float(s)` on a string, restricted to plain decimal literals:
optional surrounding whitespace, optional sign, digits with an optional
fractional part (at least one digit overall).  Exponents / `inf` / `nan` are
outside the modelled subset; any non-matching string is `none`
(a `ValueError` in Python). -/
def parseFloat (s : String) : Option ℚ :=
  let t := stripSpaces s.data
  let (sign, body) :
      ℚ × List Char :=
    match t with
    | '-' :: r => (-1, r)
    | '+' :: r => (1, r)
    | r => (1, r)
  let ip := body.takeWhile (fun c => c != '.')
  match body.drop ip.length with
  | [] =>
      if ip.all Char.isDigit && !ip.isEmpty then some (sign * digitsVal ip)
      else none
  | _dot :: fp =>
      if ip.all Char.isDigit && fp.all (fun c => c.isDigit && c != '.') &&
          !(ip.isEmpty && fp.isEmpty) then
        some (sign * ((digitsVal ip : ℚ) + (digitsVal fp : ℚ) / (10 : ℚ) ^ fp.length))
      else none

/-- Python `float(v)` on a decoded value: numbers pass through, strings go
through `parseFloat` (`ValueError` on failure), dicts/lists are a
`TypeError`. -/
def pyFloat : PyVal → Except PyError ℚ
  | .num q => .ok q
  | .str s =>
      match parseFloat s with
      | some q => .ok q
      | none => .error .valueError
  | _ => .error .typeError

/-- Does `pat` match the leading characters of the second list?
(structural helper for `pyIn`). -/
def leadMatch : List Char → List Char → Bool
  | [], _ => true
  | _ :: _, [] => false
  | c :: cs, d :: ds => c == d && leadMatch cs ds

/-- Does `needle` occur as a contiguous run inside `hay`? -/
def charContains : List Char → List Char → Bool
  | [], needle => needle.isEmpty
  | h :: t, needle => leadMatch needle (h :: t) || charContains t needle

/-- Python `needle in hay` on strings. -/
def pyIn (needle hay : String) : Bool :=
  charContains hay.data needle.data

/-- Python `s.lower()` (ASCII case folding, as `Char.toLower` does). -/
def pyLower (s : String) : String :=
  String.mk (s.data.map Char.toLower)

/-- Lines 118–129 of `_calculate_trend`, the pure part after price
extraction: return `'neutral'` when fewer than 2 prices, else compare the
last price against `sum(prices[-3:]) / 3` — note the constant divisor 3,
applied even when `prices[-3:]` has fewer than 3 elements. -/
def trendOfPrices (prices : List ℚ) : Trend :=
  if prices.length < 2 then .neutral
  else
    let sma := (prices.drop (prices.length - 3)).sum / 3
    let current := prices.getLastD 0
    if current > sma then .upward
    else if current < sma then .downward
    else .neutral

/-- Line 117: `[float(day['4. close']) for day in data['Time Series (Daily)'].values()]`.
The comprehension stops at the first raising element, which `mapM` over
`Except` reproduces. -/
def calcPrices (data : PyVal) : Except PyError (List ℚ) := do
  let ts ← data.getItem "Time Series (Daily)"
  let days ← ts.pyValues
  days.mapM (fun day => do
    let c ← day.getItem "4. close"
    pyFloat c)

/-- `_calculate_trend` (lines 116–132): run the extraction and the pure trend
computation; `except (KeyError, IndexError)` degrades those two kinds to
`'neutral'`, every other exception propagates to the caller. -/
def calculateTrend (data : PyVal) : Except PyError Trend :=
  match calcPrices data with
  | .ok prices => .ok (trendOfPrices prices)
  | .error e =>
      if e = .keyError ∨ e = .indexError then .ok .neutral else .error e

/-- One value of the `analysis` dict built by `analyze_trends`:
the timestamp entry, a finance entry `{'price': …, 'trend': …}`, or a news
entry `{'sentiment': …}`. -/
inductive Entry where
  | timestamp (t : String)
  | finance (price : ℚ) (trend : Trend)
  | news (sentiment : ℚ)
deriving DecidableEq, Repr

/-- Lines 96–97: `sum(1 for article in articles if 'bullish' in
article['title'].lower())`, as a left fold with accumulator `n`; raises if an
article is not a dict with a string title. -/
def countBullish : ℕ → List PyVal → Except PyError ℕ
  | n, [] => .ok n
  | n, article :: rest => do
      let t ← article.getItem "title"
      match t with
      | .str s => countBullish (n + if pyIn "bullish" (pyLower s) then 1 else 0) rest
      | _ => .error .attributeError

/-- The news branch of `analyze_trends` (lines 95–100): read
`data.get('articles', [])`, count bullish titles, and record
`positive_count / total_articles if total_articles > 0 else 0`. -/
def newsEntry (data : PyVal) : Except PyError Entry := do
  let arts ← data.pyGet "articles" (.list [])
  let items ← arts.asItems
  match countBullish 0 items with
  | .error e => .error e
  | .ok cnt => .ok (.news (if items.length > 0 then (cnt : ℚ) / items.length else 0))

/-- The finance branch of `analyze_trends` (lines 88–92): look up
`data['Time Series (Daily)']['4. close']`, convert it with `float`, then run
`_calculate_trend` on the whole payload; any raised exception propagates to
the per-source handler. -/
def financeEntry (data : PyVal) : Except PyError Entry := do
  let ts ← data.getItem "Time Series (Daily)"
  let cp ← ts.getItem "4. close"
  let price ← pyFloat cp
  let trend ← calculateTrend data
  pure (.finance price trend)

/-- The body of one iteration of the `analyze_trends` loop, before the
`except Exception` handler: fetch the source's payload, then run the branch
selected by `source_type`; `'finance'` and `'news'` produce an entry, any
other type falls through the `if/elif` chain and assigns nothing. -/
def processSource (fetch : String → Except PyError PyVal)
    (source sourceType : String) : Except PyError (Option Entry) := do
  let data ← fetch source
  if sourceType == "finance" then do
    let e ← financeEntry data
    pure (some e)
  else if sourceType == "news" then do
    let e ← newsEntry data
    pure (some e)
  else
    pure none

/-- Python dict item assignment `d[k] = v` on an insertion-ordered dict:
update in place when the key exists, append otherwise. -/
def dictInsert (d : List (String × Entry)) (k : String) (v : Entry) :
    List (String × Entry) :=
  if d.any (fun kv => kv.1 == k) then
    d.map (fun kv => if kv.1 == k then (k, v) else kv)
  else
    d ++ [(k, v)]

/-- One iteration of the `analyze_trends` loop including the
`except Exception` handler (lines 84–102): a raised exception is logged and
the source's entry is simply not assigned. -/
def analyzeStep (fetch : String → Except PyError PyVal)
    (analysis : List (String × Entry)) (src : String × String) :
    List (String × Entry) :=
  match processSource fetch src.1 src.2 with
  | .ok (some e) => dictInsert analysis src.1 e
  | .ok none => analysis
  | .error _ => analysis

/-- `analyze_trends` (lines 75–104): start from
`{'timestamp': now}` and fold the per-source step over `data_sources`.
`now` stands for `datetime.now().isoformat()` and `fetch` for the terminal
behaviour of `self.fetch_data` on each source. -/
def analyzeTrends (now : String) (fetch : String → Except PyError PyVal)
    (sources : List (String × String)) : List (String × Entry) :=
  sources.foldl (analyzeStep fetch) (dictInsert [] "timestamp" (.timestamp now))

/-- The keys of the returned analysis dict other than `'timestamp'`:
the per-source results mapping. -/
def resultKeys (d : List (String × Entry)) : List String :=
  (d.map Prod.fst).filter (fun k => k != "timestamp")

/-- The analysis dict with the `'timestamp'` entry removed: what the spec
calls the report's `results`. -/
def resultsOf (d : List (String × Entry)) : List (String × Entry) :=
  d.filter (fun kv => kv.1 != "timestamp")

/-- The result of one attempt inside `fetch_data`'s `try` block: the attempt
returns a decoded payload, raises a `RequestException` (timeout, HTTP error
from `raise_for_status`, connection error), or raises some other exception
(e.g. the `KeyError` from an `api_keys` lookup), which the `except` clause
does not catch. -/
inductive AttemptResult where
  | ok (v : PyVal)
  | requestExn (k : ReqKind)
  | otherExn (e : PyError)

/-- The retry loop of `fetch_data` (lines 43–73), run against a trace
`outcomes` giving the result of each attempt.  `maxRetries` is
`self.max_retries`; faithfully to the code, the recursive call at line 72
passes it along UNCHANGED — the guard `self.max_retries > 0` reads the same
attribute every time.  `i` is the index of the next attempt and `fuel`
bounds how many attempts we are willing to observe; the value is
`some (attempts, outcome)` when the call terminates within `fuel` attempts
and `none` when after `fuel` attempts it is still retrying. -/
def fetchRun (maxRetries : ℕ) (outcomes : ℕ → AttemptResult) :
    ℕ → ℕ → Option (ℕ × Except PyError PyVal)
  | _, 0 => none
  | i, fuel + 1 =>
      match outcomes i with
      | .ok v => some (i + 1, .ok v)
      | .otherExn e => some (i + 1, .error e)
      | .requestExn k =>
          if maxRetries > 0 then fetchRun maxRetries outcomes (i + 1) fuel
          else some (i + 1, .error (.requestExn k))

/-- One pass of `fetch_data`'s `try` block before `raise_for_status`
(lines 43–63), for a given `api_keys` dict and network behaviour `net`
(what `requests.get` + `raise_for_status` + `.json()` produce for each
source).  Returns the list of endpoint URLs actually requested together with
the outcome.  The `'alphavantage'` branch reads `api_keys['alphavantage']`
and the `'newsapi'` branch reads `api_keys['.newsapi']` (note the leading
dot in the code) before issuing the request — a missing key is a `KeyError`
raised with no request issued; the `'iexcloud'` branch reads no key; any
other source falls through the `if/elif` chain, so `response` is never
assigned and line 64 raises `UnboundLocalError` with no request issued. -/
def fetchBody (apiKeys : List (String × String))
    (net : String → AttemptResult) (source : String) :
    List String × AttemptResult :=
  if source == "alphavantage" then
    match apiKeys.find? (fun kv => kv.1 == "alphavantage") with
    | some _ => (["https://www.alphavantage.co/query"], net source)
    | none => ([], .otherExn .keyError)
  else if source == "iexcloud" then
    (["https://api.iexcloud.io/v1/batch"], net source)
  else if source == "newsapi" then
    match apiKeys.find? (fun kv => kv.1 == ".newsapi") with
    | some _ => (["https://www.newsapi.org/v2/top-headlines"], net source)
    | none => ([], .otherExn .keyError)
  else
    ([], .otherExn .unboundLocalError)

/-- The `api_keys` dict from `__init__` (lines 23–26): keys
`'alphavantage'` and `'iexcloud'` only — in particular no `'.newsapi'`. -/
def defaultApiKeys : List (String × String) :=
  [("alphavantage", "YOUR_API_KEY"), ("iexcloud", "YOUR_API_KEY")]

/-- The `data_sources` registry from `__init__` (line 27). -/
def defaultDataSources : List (String × String) :=
  [("alphavantage", "finance"), ("newsapi", "news")]

/-- The `max_retries` attribute from `__init__` (line 28). -/
def defaultMaxRetries : ℕ := 3

/-- Did a source's pipeline produce an entry?  True exactly when the loop
body assigns `analysis[source]`. -/
def sourceSucceeds (fetch : String → Except PyError PyVal)
    (s : String × String) : Bool :=
  match processSource fetch s.1 s.2 with
  | .ok (some _) => true
  | _ => false

/-- A news article object `{'title': t}` as decoded from the news payload. -/
def mkArticle (t : String) : PyVal :=
  .dict [("title", .str t)]

/-- A news payload `{'articles': [{'title': t}, …]}` carrying the given
titles. -/
def mkNewsPayload (ts : List String) : PyVal :=
  .dict [("articles", .list (ts.map mkArticle))]

/-- The number of titles whose lowercasing contains `'bullish'` — the
`positive_count` of lines 96. -/
def bullishCount (ts : List String) : ℕ :=
  (ts.filter (fun t => pyIn "bullish" (pyLower t))).length

/-- A price payload whose time series contains a malformed (non-numeric)
closing-price string. -/
def malformedPricePayload : PyVal :=
  .dict [("Time Series (Daily)",
    .dict [("2024-01-01", .dict [("4. close", .str "abc")])])]

/-- Two analysis dicts with the same key sequence and the same entries off
the `'timestamp'` key (invariant used for timestamp independence). -/
def SameResults (d1 d2 : List (String × Entry)) : Prop :=
  d1.map Prod.fst = d2.map Prod.fst ∧ resultsOf d1 = resultsOf d2

/-- Counting bullish titles over article objects built from a title list
computes `bullishCount`, for any accumulator start. -/
lemma countBullish_map (ts : List String) :
    ∀ n : ℕ, countBullish n (ts.map mkArticle) = .ok (n + bullishCount ts) := by
  induction ts with
  | nil => intro n; simp [countBullish, bullishCount]
  | cons t rest ih =>
      intro n
      have h1 : countBullish n (List.map mkArticle (t :: rest))
          = countBullish (n + if pyIn "bullish" (pyLower t) then 1 else 0)
              (rest.map mkArticle) := rfl
      rw [h1, ih]
      have h2 : bullishCount (t :: rest)
          = (if pyIn "bullish" (pyLower t) then 1 else 0) + bullishCount rest := by
        by_cases h : pyIn "bullish" (pyLower t) <;>
          · simp [bullishCount, List.filter_cons, h]
            try omega
      rw [h2]
      congr 1
      omega

/-- Closed form of the news branch on a payload carrying the given titles. -/
lemma newsEntry_titles (ts : List String) :
    newsEntry (mkNewsPayload ts)
      = .ok (.news (if 0 < ts.length then (bullishCount ts : ℚ) / (ts.length : ℚ) else 0)) := by
  have hc : countBullish 0 (ts.map mkArticle) = .ok (bullishCount ts) := by
    simpa using countBullish_map ts 0
  have h1 : newsEntry (mkNewsPayload ts)
      = match countBullish 0 (ts.map mkArticle) with
        | .error e => .error e
        | .ok cnt => .ok (.news (if (ts.map mkArticle).length > 0 then
            (cnt : ℚ) / ((ts.map mkArticle).length : ℚ) else 0)) := rfl
  rw [h1, hc]
  simp

/-- With every attempt raising a `RequestException`, the retry loop of
`fetch_data` is still running after any number of attempts: the guard
`self.max_retries > 0` is always true because the attribute is never
decremented. -/
lemma fetchRun_allFail (k : ReqKind) :
    ∀ (fuel i : ℕ), fetchRun defaultMaxRetries (fun _ => .requestExn k) i fuel = none := by
  intro fuel
  induction fuel with
  | zero => intro i; rfl
  | succ n ih => intro i; simpa [fetchRun, defaultMaxRetries] using ih (i + 1)

/-- A `RequestException` on the first attempt followed by success yields
the success after exactly two attempts. -/
lemma fetchRun_failThenOk (k : ReqKind) (v : PyVal) :
    fetchRun defaultMaxRetries
      (fun i => if i == 0 then .requestExn k else .ok v) 0 10 = some (2, .ok v) := rfl

/-- Series shorter than 2 classify as `'neutral'`. -/
lemma trend_short (s : List ℚ) (h : s.length < 2) : trendOfPrices s = .neutral := by
  unfold trendOfPrices
  rw [if_pos h]

/-- Inserting a fresh key appends the pair at the end. -/
lemma dictInsert_notMem (d : List (String × Entry)) (k : String) (v : Entry)
    (h : k ∉ d.map Prod.fst) : dictInsert d k v = d ++ [(k, v)] := by
  unfold dictInsert
  rw [if_neg]
  intro hany
  rcases List.any_eq_true.mp hany with ⟨kv, hkv, hbeq⟩
  exact h (List.mem_map.mpr ⟨kv, hkv, (beq_iff_eq.mp hbeq).symm ▸ rfl⟩)

/-- Key sequence of the `analyze_trends` loop: starting from a dict whose
keys are disjoint from the (duplicate-free) registry, the final keys are the
initial ones followed by the identifiers of exactly the sources whose
processing succeeded. -/
lemma analyzeLoop_keys (fetch : String → Except PyError PyVal) :
    ∀ (srcs : List (String × String)) (d : List (String × Entry)),
      (srcs.map Prod.fst).Nodup → (∀ p ∈ srcs, p.1 ∉ d.map Prod.fst) →
      (srcs.foldl (analyzeStep fetch) d).map Prod.fst
        = d.map Prod.fst ++ (srcs.filter (sourceSucceeds fetch)).map Prod.fst := by
  intro srcs
  induction srcs with
  | nil => intro d _ _; simp
  | cons s rest ih =>
      intro d hnd hdisj
      have hnd' : (rest.map Prod.fst).Nodup := by
        simpa using hnd.of_cons
      have hs : s.1 ∉ d.map Prod.fst := hdisj s (List.mem_cons_self s rest)
      rw [List.foldl_cons]
      cases hps : processSource fetch s.1 s.2 with
      | error e =>
          have hstep : analyzeStep fetch d s = d := by
            simp [analyzeStep, hps]
          have hsucc : sourceSucceeds fetch s = false := by
            simp [sourceSucceeds, hps]
          rw [hstep, ih d hnd' (fun p hp => hdisj p (List.mem_cons_of_mem s hp))]
          simp [List.filter_cons, hsucc]
      | ok oe =>
          cases oe with
          | none =>
              have hstep : analyzeStep fetch d s = d := by
                simp [analyzeStep, hps]
              have hsucc : sourceSucceeds fetch s = false := by
                simp [sourceSucceeds, hps]
              rw [hstep, ih d hnd' (fun p hp => hdisj p (List.mem_cons_of_mem s hp))]
              simp [List.filter_cons, hsucc]
          | some e =>
              have hstep : analyzeStep fetch d s = d ++ [(s.1, e)] := by
                simp [analyzeStep, hps, dictInsert_notMem d s.1 e hs]
              have hsucc : sourceSucceeds fetch s = true := by
                simp [sourceSucceeds, hps]
              have hdisj' : ∀ p ∈ rest, p.1 ∉ (d ++ [(s.1, e)]).map Prod.fst := by
                intro p hp
                simp only [List.map_append, List.mem_append]
                rintro (hmem | hmem)
                · exact hdisj p (List.mem_cons_of_mem s hp) hmem
                · have hp1 : p.1 = s.1 := by simpa using hmem
                  have : s.1 ∉ rest.map Prod.fst := by
                    simpa using (List.nodup_cons.mp hnd).1
                  exact this (hp1 ▸ List.mem_map.mpr ⟨p, hp, rfl⟩)
              rw [hstep, ih (d ++ [(s.1, e)]) hnd' hdisj']
              simp [List.filter_cons, hsucc]

/-- Item assignment with the same key/value preserves `SameResults`. -/
lemma dictInsert_sameResults (k : String) (v : Entry) (d1 d2 : List (String × Entry))
    (h : SameResults d1 d2) : SameResults (dictInsert d1 k v) (dictInsert d2 k v) := by
  obtain ⟨hk, hr⟩ := h
  have hany : d1.any (fun kv => kv.1 == k) = d2.any (fun kv => kv.1 == k) := by
    have h1 : ∀ d : List (String × Entry),
        d.any (fun kv => kv.1 == k) = (d.map Prod.fst).any (fun x => x == k) := by
      intro d
      induction d with
      | nil => rfl
      | cons a t ih => simp [List.any_cons, ih]
    rw [h1, h1, hk]
  unfold dictInsert
  rw [hany]
  by_cases hc : d2.any (fun kv => kv.1 == k) = true
  · rw [if_pos hc, if_pos hc]
    constructor
    · have hfst : ∀ d : List (String × Entry),
          (d.map (fun kv => if kv.1 == k then (k, v) else kv)).map Prod.fst
            = d.map Prod.fst := by
        intro d
        rw [List.map_map]
        apply List.map_congr_left
        intro kv _
        cases hkv : (kv.1 == k) with
        | true =>
            have h' := beq_iff_eq.mp hkv
            simp [Function.comp_apply, hkv, h']
        | false =>
            have h' : kv.1 ≠ k := by simpa using hkv
            simp [Function.comp_apply, h']
      rw [hfst, hfst, hk]
    · have hflt : ∀ d : List (String × Entry),
          resultsOf (d.map (fun kv => if kv.1 == k then (k, v) else kv))
            = (resultsOf d).map (fun kv => if kv.1 == k then (k, v) else kv) := by
        intro d
        unfold resultsOf
        rw [List.filter_map]
        congr 1
        apply List.filter_congr
        intro kv _
        cases hkv : (kv.1 == k) with
        | true =>
            have h' := beq_iff_eq.mp hkv
            simp [Function.comp_apply, hkv, h']
        | false =>
            have h' : kv.1 ≠ k := by simpa using hkv
            simp [Function.comp_apply, h']
      rw [hflt, hflt, hr]
  · rw [if_neg hc, if_neg hc]
    constructor
    · simp [List.map_append, hk]
    · unfold resultsOf
      rw [List.filter_append, List.filter_append]
      unfold resultsOf at hr
      rw [hr]

/-- One loop iteration preserves `SameResults`. -/
lemma analyzeStep_sameResults (fetch : String → Except PyError PyVal)
    (s : String × String) (d1 d2 : List (String × Entry))
    (h : SameResults d1 d2) :
    SameResults (analyzeStep fetch d1 s) (analyzeStep fetch d2 s) := by
  unfold analyzeStep
  cases processSource fetch s.1 s.2 with
  | error e => exact h
  | ok oe =>
      cases oe with
      | none => exact h
      | some e => exact dictInsert_sameResults s.1 e d1 d2 h

/-- The whole loop preserves `SameResults`. -/
lemma analyzeLoop_sameResults (fetch : String → Except PyError PyVal)
    (srcs : List (String × String)) :
    ∀ d1 d2, SameResults d1 d2 →
      SameResults (srcs.foldl (analyzeStep fetch) d1) (srcs.foldl (analyzeStep fetch) d2) := by
  induction srcs with
  | nil => intro d1 d2 h; exact h
  | cons s rest ih =>
      intro d1 d2 h
      rw [List.foldl_cons, List.foldl_cons]
      exact ih _ _ (analyzeStep_sameResults fetch s d1 d2 h)

/-- Reports composed at different timestamps agree off the timestamp key. -/
lemma analyzeTrends_sameResults (now1 now2 : String)
    (fetch : String → Except PyError PyVal) (srcs : List (String × String)) :
    resultsOf (analyzeTrends now1 fetch srcs) = resultsOf (analyzeTrends now2 fetch srcs) := by
  refine (analyzeLoop_sameResults fetch srcs _ _ ?_).2
  exact ⟨rfl, rfl⟩

/-- Claim C1, counterexample: with the registry `[('newsapi', 'news')]` and a
fetch that raises (as the code's `api_keys['.newsapi']` lookup does), the
returned dict holds only the timestamp — the failed source gets no entry at
all, contradicting "exactly one entry per registered source identifier, with
a per-source Error entry for every failed source". -/
theorem C1_counterexample :
    analyzeTrends "t0" (fun _ => .error .keyError) [("newsapi", "news")]
      = [("timestamp", .timestamp "t0")] ∧
    resultKeys (analyzeTrends "t0" (fun _ => .error .keyError) [("newsapi", "news")]) = [] :=
  ⟨rfl, rfl⟩

/-- Claim C1, amended: `analyze_trends` always returns (every per-source
exception is absorbed by the loop's blanket handler), and the results
mapping contains exactly one entry per source whose fetch, parse and
analysis all succeeded; a source that failed at any stage is simply absent
from the mapping — no Error entry is recorded for it. -/
theorem C1_keys_are_successes (now : String) (fetch : String → Except PyError PyVal)
    (srcs : List (String × String)) (hnd : (srcs.map Prod.fst).Nodup)
    (hts : ∀ p ∈ srcs, p.1 ≠ "timestamp") :
    resultKeys (analyzeTrends now fetch srcs)
      = (srcs.filter (sourceSucceeds fetch)).map Prod.fst := by
  unfold analyzeTrends resultKeys
  rw [analyzeLoop_keys fetch srcs (dictInsert [] "timestamp" (.timestamp now)) hnd
    (by intro p hp; simpa [dictInsert] using hts p hp)]
  rw [show (dictInsert [] "timestamp" (Entry.timestamp now)).map Prod.fst
      = ["timestamp"] from rfl]
  rw [List.filter_append]
  have h1 : List.filter (fun k => k != "timestamp") ["timestamp"] = [] := by simp
  rw [h1, List.nil_append]
  apply List.filter_eq_self.mpr
  intro x hx
  rcases List.mem_map.mp hx with ⟨p, hp, rfl⟩
  have hp' : p ∈ srcs := List.mem_of_mem_filter hp
  simpa using hts p hp'

/-- Claim C1, witness: a two-source registry where the first source succeeds
and the second raises; the result keys are exactly the successful sources. -/
theorem C1_keys_witness :
    ((([("a", "news"), ("b", "news")] : List (String × String)).map Prod.fst).Nodup ∧
      (∀ p ∈ ([("a", "news"), ("b", "news")] : List (String × String)), p.1 ≠ "timestamp")) ∧
    resultKeys (analyzeTrends "t0"
        (fun s => if s == "a" then .ok (.dict []) else .error .keyError)
        [("a", "news"), ("b", "news")])
      = (([("a", "news"), ("b", "news")] : List (String × String)).filter
          (sourceSucceeds (fun s => if s == "a" then .ok (.dict []) else .error .keyError))).map
          Prod.fst :=
  ⟨⟨by decide, by decide⟩,
    C1_keys_are_successes "t0" _ _ (by decide) (by decide)⟩

/-- Claim C2: the code never decrements `max_retries`, so the guard
`self.max_retries > 0` is always true and the retry loop never terminates on
persistent transient failure — contradicting the claimed bound of
`max_retries + 1` total attempts with a surfaced terminal failure.  With
`max_retries + 1` transient failures followed by a success, the code keeps
going and returns the success on attempt `max_retries + 2`, exceeding the
claimed attempt bound. -/
theorem C2_retry_never_terminates :
    (∀ fuel i, fetchRun defaultMaxRetries (fun _ => .requestExn .timeout) i fuel = none) ∧
    fetchRun defaultMaxRetries
      (fun i => if i < defaultMaxRetries + 1 then .requestExn .timeout else .ok (.dict []))
      0 100 = some (defaultMaxRetries + 2, .ok (.dict [])) ∧
    defaultMaxRetries + 2 > defaultMaxRetries + 1 :=
  ⟨fetchRun_allFail .timeout, rfl, by norm_num⟩

/-- Claim C3, counterexample: an HTTP 4xx failure on the first attempt is
caught and retried like any other `RequestException` — the success of the
second attempt is returned after 2 attempts, not a permanent failure after
exactly 1 attempt. -/
theorem C3_counterexample :
    fetchRun defaultMaxRetries
      (fun i => if i == 0 then .requestExn .http4xx else .ok (.dict [])) 0 10
      = some (2, .ok (.dict [])) ∧ (2 : ℕ) ≠ 1 :=
  ⟨rfl, by decide⟩

/-- Claim C3, amended: the code draws no distinction between transient and
permanent `RequestException`s; a 4xx is caught and retried (after the 5 s
sleep) like a timeout: 4xx-then-success returns the success after two
attempts, and persistent 4xx keeps the loop retrying forever. -/
theorem C3_4xx_retried (v : PyVal) :
    fetchRun defaultMaxRetries
      (fun i => if i == 0 then .requestExn .http4xx else .ok v) 0 10 = some (2, .ok v) ∧
    (∀ fuel i, fetchRun defaultMaxRetries (fun _ => .requestExn .http4xx) i fuel = none) :=
  ⟨fetchRun_failThenOk .http4xx v, fetchRun_allFail .http4xx⟩

/-- Claim C4, counterexample: for the empty article set the code records the
number 0 as the sentiment (the guarded else-branch of line 99), not an
undefined "no sentiment available" value. -/
theorem C4_counterexample :
    newsEntry (mkNewsPayload []) = .ok (.news 0) := by
  simpa using newsEntry_titles []

/-- Claim C4, amended: for the empty article set (and likewise when the
`articles` key is absent), the recorded sentiment is the number 0; the
`if total_articles > 0` guard avoids division by zero by yielding 0. -/
theorem C4_empty_sentiment_zero (ts : List String) (h : ts = []) :
    newsEntry (mkNewsPayload ts) = .ok (.news 0) ∧
    newsEntry (.dict []) = .ok (.news 0) := by
  subst h
  exact ⟨by simpa using newsEntry_titles [], rfl⟩

/-- Claim C4, witness: the amended statement evaluated at the empty title
list. -/
theorem C4_empty_sentiment_zero_witness :
    (([] : List String) = []) ∧
    (newsEntry (mkNewsPayload []) = .ok (.news 0) ∧ newsEntry (.dict []) = .ok (.news 0)) :=
  ⟨rfl, C4_empty_sentiment_zero [] rfl⟩

/-- Claim C5, counterexample: the constant 2-element series `[2, 2]`
classifies as `'upward'`, not Flat — line 122 divides the 2-element sum by
the constant 3 (`sum(prices[-3:]) / 3`), so the comparison point is
4/3, below the last element 2. -/
theorem C5_counterexample :
    trendOfPrices [2, 2] = .upward ∧ Trend.upward ≠ Trend.neutral :=
  ⟨by norm_num [trendOfPrices], by decide⟩

/-- Claim C5, amended: for a series of length exactly 2 the code compares
the last element against the SUM OF BOTH ELEMENTS DIVIDED BY 3 (not their
mean): strictly greater is Up, strictly less is Down, equal is Flat; in
particular a constant positive 2-element series classifies as Up. -/
theorem C5_two_element_series (a b : ℚ) :
    trendOfPrices [a, b] =
      if b > (a + b) / 3 then .upward
      else if b < (a + b) / 3 then .downward
      else .neutral := by
  simp [trendOfPrices, List.getLastD]

/-- Claim C6: series with fewer than 2 elements classify as Flat, and the
concrete examples `[1,2,3]` (Up), `[3,2,1]` (Down), `[2,2,2]` (Flat) behave
as claimed — for length-3 series the divisor 3 matches the element count, so
the code computes a true 3-element average there. -/
theorem C6_trend_examples :
    (∀ s : List ℚ, s.length < 2 → trendOfPrices s = .neutral) ∧
    trendOfPrices [] = .neutral ∧ trendOfPrices [5] = .neutral ∧
    trendOfPrices [1, 2, 3] = .upward ∧ trendOfPrices [3, 2, 1] = .downward ∧
    trendOfPrices [2, 2, 2] = .neutral := by
  refine ⟨trend_short, ?_, ?_, ?_, ?_, ?_⟩ <;> norm_num [trendOfPrices]

/-- Claim C6, witness: the short-series clause evaluated at `[5]`. -/
theorem C6_trend_examples_witness :
    ([(5 : ℚ)].length < 2) ∧ trendOfPrices [(5 : ℚ)] = .neutral :=
  ⟨by decide, C6_trend_examples.1 [(5 : ℚ)] (by decide)⟩

/-- Claim C7, counterexample: a payload whose closing price is the malformed
string `"abc"` makes `_calculate_trend` raise `ValueError` (from `float`),
which the `except (KeyError, IndexError)` clause does not catch — the
classifier does not return a Trend value on this input. -/
theorem C7_counterexample :
    calculateTrend malformedPricePayload = .error .valueError ∧
    ∀ t : Trend, (Except.error PyError.valueError : Except PyError Trend) ≠ .ok t := by
  refine ⟨rfl, ?_⟩
  intro t h
  exact Except.noConfusion h

/-- Claim C7, amended: `_calculate_trend` degrades to Flat exactly on
`KeyError`/`IndexError` lookup failures; those two kinds never escape it,
but a conversion failure (`ValueError` from a malformed numeric string)
propagates out of the classifier (to be absorbed later by
`analyze_trends`' blanket per-source handler). -/
theorem C7_degrade_only_lookup_errors :
    (∀ data : PyVal, calcPrices data = .error .keyError → calculateTrend data = .ok .neutral) ∧
    (∀ (data : PyVal) (e : PyError), calculateTrend data = .error e →
      ¬(e = .keyError ∨ e = .indexError)) := by
  constructor
  · intro data h
    unfold calculateTrend
    rw [h]
    simp
  · intro data e h
    unfold calculateTrend at h
    cases hc : calcPrices data with
    | ok prices => rw [hc] at h; exact Except.noConfusion h
    | error e' =>
        rw [hc] at h
        dsimp only at h
        by_cases he : e' = .keyError ∨ e' = .indexError
        · rw [if_pos he] at h
          exact Except.noConfusion h
        · rw [if_neg he] at h
          injection h with h'
          exact fun hcon => he (h' ▸ hcon)

/-- Claim C7, witness: both amended clauses evaluated — a missing
`'Time Series (Daily)'` key degrades to Flat, while the malformed payload's
escaping error is a `ValueError`, not a degradable lookup error. -/
theorem C7_degrade_witness :
    (calcPrices (PyVal.dict []) = .error .keyError ∧
      calculateTrend (PyVal.dict []) = .ok .neutral) ∧
    (calculateTrend malformedPricePayload = .error .valueError ∧
      ¬(PyError.valueError = .keyError ∨ PyError.valueError = .indexError)) :=
  ⟨⟨rfl, C7_degrade_only_lookup_errors.1 (PyVal.dict []) rfl⟩,
    ⟨rfl, C7_degrade_only_lookup_errors.2 malformedPricePayload .valueError rfl⟩⟩

/-- Claim C8: for every non-empty article set the sentiment equals the
number of titles containing `'bullish'` (case-insensitively) divided by the
total title count; `["X is bullish", "Y"]` scores 1/2 and `["a", "b"]`
scores 0. -/
theorem C8_sentiment_ratio :
    (∀ ts : List String, ts ≠ [] →
      newsEntry (mkNewsPayload ts)
        = .ok (.news ((bullishCount ts : ℚ) / (ts.length : ℚ)))) ∧
    newsEntry (mkNewsPayload ["X is bullish", "Y"]) = .ok (.news (1 / 2)) ∧
    newsEntry (mkNewsPayload ["a", "b"]) = .ok (.news 0) := by
  have hgen : ∀ ts : List String, ts ≠ [] →
      newsEntry (mkNewsPayload ts)
        = .ok (.news ((bullishCount ts : ℚ) / (ts.length : ℚ))) := by
    intro ts hne
    rw [newsEntry_titles ts, if_pos (List.length_pos.mpr hne)]
  refine ⟨hgen, ?_, ?_⟩
  · rw [hgen ["X is bullish", "Y"] (by decide)]
    have hb : bullishCount ["X is bullish", "Y"] = 1 := by decide
    rw [hb]
    norm_num
  · rw [hgen ["a", "b"] (by decide)]
    have hb : bullishCount ["a", "b"] = 0 := by decide
    rw [hb]
    norm_num

/-- Claim C8, witness: the ratio clause evaluated at the keyword-free pair
of titles. -/
theorem C8_sentiment_ratio_witness :
    (["a", "b"] ≠ ([] : List String)) ∧
    newsEntry (mkNewsPayload ["a", "b"])
      = .ok (.news ((bullishCount ["a", "b"] : ℚ) / ((["a", "b"] : List String).length : ℚ))) :=
  ⟨by decide, C8_sentiment_ratio.1 ["a", "b"] (by decide)⟩

/-- Claim C9: two compositions over the same registry with the same
per-source fetch behaviour produce the same results mapping — the timestamp
is the only part of the analysis dict that can differ between the runs. -/
theorem C9_results_timestamp_independent (now1 now2 : String)
    (fetch : String → Except PyError PyVal) (srcs : List (String × String)) :
    resultsOf (analyzeTrends now1 fetch srcs) = resultsOf (analyzeTrends now2 fetch srcs) :=
  analyzeTrends_sameResults now1 now2 fetch srcs

/-- Claim C10: for any source string other than the three known identifiers,
the `if/elif` chain of `fetch_data` assigns no `response`, no request is
issued, and line 64 raises `UnboundLocalError` — which the
`except RequestException` clause does not catch, so no typed outcome is
returned. -/
theorem C10_unknown_source_unbound (apiKeys : List (String × String))
    (net : String → AttemptResult) (source : String)
    (h : source ∉ ["alphavantage", "iexcloud", "newsapi"]) :
    fetchBody apiKeys net source = ([], .otherExn .unboundLocalError) ∧
    PyError.unboundLocalError.isRequestException = false := by
  have h1 : source ≠ "alphavantage" := by intro he; exact h (by rw [he]; simp)
  have h2 : source ≠ "iexcloud" := by intro he; exact h (by rw [he]; simp)
  have h3 : source ≠ "newsapi" := by intro he; exact h (by rw [he]; simp)
  exact ⟨by simp [fetchBody, h1, h2, h3], rfl⟩

/-- Claim C10, witness: the unknown source `"foo"` with the code's own
`api_keys`. -/
theorem C10_unknown_source_witness :
    ("foo" ∉ ["alphavantage", "iexcloud", "newsapi"]) ∧
    (fetchBody defaultApiKeys (fun _ => .otherExn .keyError) "foo"
        = ([], .otherExn .unboundLocalError) ∧
      PyError.unboundLocalError.isRequestException = false) :=
  ⟨by decide,
    C10_unknown_source_unbound defaultApiKeys (fun _ => .otherExn .keyError) "foo" (by decide)⟩
